import Mathlib

/-!
Shallow embedding of the Role Lifecycle & Access-Control Service
(`system/service/role.go` in the sources) of the crust server.

The repository port and the access-control port are external collaborators.
They are modelled as records of functions over an abstract store type `σ`,
and the theorems quantify over them.  Every service operation returns,
next to its Go return value, the final store and the ordered list of
repository calls it issued, so that ordering properties ("the repository
is not invoked", "the write happens only after the uniqueness check") are
expressible.
-/

namespace Crust

/-- Service and repository error values (`ErrInvalidID`, `ErrInvalidHandle`,
`ErrNoPermissions`, ... in the source).  `ErrNotAllowedToManageMembers`
stands for the unstructured member-management denial built with
`errors.New` in the source; `RepoError` stands for an arbitrary error
produced by the repository port. -/
inductive serviceError where
  | ErrInvalidID
  | ErrInvalidHandle
  | ErrNoPermissions
  | ErrNoCreatePermissions
  | ErrNoUpdatePermissions
  | ErrRoleNameNotUnique
  | ErrRoleHandleNotUnique
  | ErrNotFound
  | ErrNotAllowedToManageMembers
  | RepoError (code : Nat)
deriving DecidableEq, Repr

instance {ε α : Type} [DecidableEq ε] [DecidableEq α] : DecidableEq (Except ε α) := fun a b =>
  match a, b with
  | .ok x, .ok y => decidable_of_iff (x = y) (by simp)
  | .error x, .error y => decidable_of_iff (x = y) (by simp)
  | .ok _, .error _ => isFalse (by simp)
  | .error _, .ok _ => isFalse (by simp)

/-- Modelled from the spec: `types.Role` is not part of the sources; the
spec describes a numeric ID (0 = unset/new), a unique display `Name`, a
unique machine-safe `Handle`, and archived-at / deleted-at lifecycle
flags. -/
structure Role where
  ID : Nat
  Name : String
  Handle : String
  ArchivedAt : Option Nat
  DeletedAt : Option Nat
deriving DecidableEq, Repr

/-- Modelled from the spec: the opaque read-visibility predicate produced
by the access-control port (`permissions.ResourceFilter`); the service
only passes it through unchanged, so it is represented by an opaque
token. -/
structure ResourceFilter where
  token : Nat
deriving DecidableEq, Repr

/-- Modelled from the spec: `types.RoleFilter` is not part of the sources;
the spec describes a deletion-visibility flag (`Deleted` = 0 requests only
active roles, positive values request archived/deleted visibility),
free-text and handle matches, and the injected read-visibility predicate
`IsReadable`. -/
structure RoleFilter where
  Query : String
  Handle : String
  Deleted : Nat
  IsReadable : Option ResourceFilter
deriving DecidableEq, Repr

/-- Modelled from the spec: `types.RoleMember` links a role and a user by
opaque numeric identifiers. -/
structure RoleMember where
  RoleID : Nat
  UserID : Nat
deriving DecidableEq, Repr

/-- One invocation of a repository-port primitive, with its arguments. -/
inductive RepoCall where
  | findByID (roleID : Nat)
  | findByName (name : String)
  | findByHandle (h : String)
  | findF (f : RoleFilter)
  | createRole (r : Role)
  | updateRole (r : Role)
  | archiveByID (roleID : Nat)
  | unarchiveByID (roleID : Nat)
  | deleteByID (roleID : Nat)
  | undeleteByID (roleID : Nat)
  | mergeByID (roleID targetRoleID : Nat)
  | moveByID (roleID targetOrganisationID : Nat)
  | membershipsFindByUserID (userID : Nat)
  | memberFindByRoleID (roleID : Nat)
  | memberAddByID (roleID userID : Nat)
  | memberRemoveByID (roleID userID : Nat)
deriving DecidableEq, Repr

/-- Result of one service operation: the Go return value or error, the
final state of the external store, and the repository calls issued, in
order. -/
abbrev SvcResult (σ α : Type) := Except serviceError α × σ × List RepoCall

/-- Modelled from the spec: the repository port
(`repository.RoleRepository` is not part of the sources).  Each primitive
acts on an abstract store `σ`; point lookups may fail with a not-found or
other error; writes return the updated store and, when they fail, do not
commit a change (the port contract of the spec: a failing primitive must
not corrupt state). -/
structure RoleRepository (σ : Type) where
  FindByID : σ → Nat → Except serviceError Role
  FindByName : σ → String → Except serviceError Role
  FindByHandle : σ → String → Except serviceError Role
  Find : σ → RoleFilter → Except serviceError (List Role × RoleFilter)
  Create : σ → Role → Except serviceError (Role × σ)
  Update : σ → Role → Except serviceError (Role × σ)
  ArchiveByID : σ → Nat → Except serviceError σ
  UnarchiveByID : σ → Nat → Except serviceError σ
  DeleteByID : σ → Nat → Except serviceError σ
  UndeleteByID : σ → Nat → Except serviceError σ
  MergeByID : σ → Nat → Nat → Except serviceError σ
  MoveByID : σ → Nat → Nat → Except serviceError σ
  MembershipsFindByUserID : σ → Nat → Except serviceError (List RoleMember)
  MemberFindByRoleID : σ → Nat → Except serviceError (List RoleMember)
  MemberAddByID : σ → Nat → Nat → Except serviceError σ
  MemberRemoveByID : σ → Nat → Nat → Except serviceError σ

/-- The access-control port (`roleAccessController` in the source):
boolean capability checks for the acting identity carried by the service
context, plus the read-visibility filter factory.  The `context.Context`
argument of the source is already folded into the record. -/
structure roleAccessController where
  CanAccess : Bool
  CanCreateRole : Bool
  CanReadRole : Role → Bool
  CanUpdateRole : Role → Bool
  CanDeleteRole : Role → Bool
  CanManageRoleMembers : Role → Bool
  FilterReadableRoles : ResourceFilter

/-- The role service (the `role` struct of the source): the access
controller and the bound repository.  The db handle is represented by
`Transaction` below; logger and context carry no behaviour. -/
structure RoleSvc (σ : Type) where
  ac : roleAccessController
  role : RoleRepository σ

/-- Modelled from the spec: the external handle-validity predicate
(`handle.IsValid`, outside the sources).  Per the spec a handle is a
machine-safe identifier over a restricted character set, and an empty or
syntactically invalid handle is rejected (`Create` with an empty handle
must fail with `InvalidHandle`). -/
def handle_IsValid (h : String) : Bool :=
  !(h == "") && h.data.all (fun c => c.isAlphanum || c == '_' || c == '-')

/-- Modelled from the spec: the transactional unit of work of the external
db layer (`svc.db.Transaction` in the source): the closure runs against
the current store; its writes are kept only when it returns no error,
otherwise the whole unit is rolled back to the starting store.  The
calls it issued still appear in the trace. -/
def Transaction {σ α : Type} (s : σ) (body : σ → SvcResult σ α) : SvcResult σ α :=
  match body s with
  | (.ok a, s2, tr) => (.ok a, s2, tr)
  | (.error e, _, tr) => (.error e, s, tr)

/-- Lift a repository read (no store change) into a service result. -/
def liftRead {σ α : Type} (c : RepoCall) (r : Except serviceError α) (s : σ) : SvcResult σ α :=
  (r, s, [c])

/-- Lift a repository state transition into a service result; a failing
primitive leaves the store untouched. -/
def liftTransition {σ : Type} (c : RepoCall) (r : Except serviceError σ) (s : σ) : SvcResult σ Unit :=
  match r with
  | .ok s2 => (.ok (), s2, [c])
  | .error e => (.error e, s, [c])

/-- Prepend an already-issued trace to a service result (sequencing). -/
def withTrace {σ α : Type} (tr : List RepoCall) (r : SvcResult σ α) : SvcResult σ α :=
  (r.1, r.2.1, tr ++ r.2.2)

/-- `role.findByID`: zero-ID guard, repository lookup, read-permission
gate, in this order. -/
def findByID {σ : Type} (svc : RoleSvc σ) (roleID : Nat) (s : σ) : SvcResult σ Role :=
  if roleID = 0 then (.error .ErrInvalidID, s, [])
  else
    match svc.role.FindByID s roleID with
    | .error e => (.error e, s, [.findByID roleID])
    | .ok role =>
      if !svc.ac.CanReadRole role then (.error .ErrNoPermissions, s, [.findByID roleID])
      else (.ok role, s, [.findByID roleID])

/-- `role.FindByID`: delegates to the internal `findByID` gate. -/
def FindByID {σ : Type} (svc : RoleSvc σ) (roleID : Nat) (s : σ) : SvcResult σ Role :=
  findByID svc roleID s

/-- `role.Find`: inject the caller's read-visibility predicate; a filter
requesting archived/deleted visibility additionally needs the coarse
`CanAccess` capability; then delegate to the repository. -/
def Find {σ : Type} (svc : RoleSvc σ) (f : RoleFilter) (s : σ) : SvcResult σ (List Role × RoleFilter) :=
  let f := { f with IsReadable := some svc.ac.FilterReadableRoles }
  if f.Deleted > 0 then
    if !svc.ac.CanAccess then (.error .ErrNoPermissions, s, [])
    else liftRead (.findF f) (svc.role.Find s f) s
  else liftRead (.findF f) (svc.role.Find s f) s

/-- `role.FindByName`: unauthenticated repository passthrough. -/
def FindByName {σ : Type} (svc : RoleSvc σ) (rolename : String) (s : σ) : SvcResult σ Role :=
  liftRead (.findByName rolename) (svc.role.FindByName s rolename) s

/-- `role.FindByHandle`: unauthenticated repository passthrough. -/
def FindByHandle {σ : Type} (svc : RoleSvc σ) (h : String) (s : σ) : SvcResult σ Role :=
  liftRead (.findByHandle h) (svc.role.FindByHandle s h) s

/-- `role.UniqueCheck`, handle part: for a non-empty handle, look the
handle up; a lookup error is discarded (`ex, _ :=` in the source); a
found role with a non-zero ID different from `r.ID` is a conflict. -/
def uniqueCheckHandle {σ : Type} (svc : RoleSvc σ) (r : Role) (s : σ) :
    Except serviceError Unit × List RepoCall :=
  if r.Handle ≠ "" then
    match svc.role.FindByHandle s r.Handle with
    | .ok ex =>
      if ex.ID > 0 ∧ ex.ID ≠ r.ID then (.error .ErrRoleHandleNotUnique, [.findByHandle r.Handle])
      else (.ok (), [.findByHandle r.Handle])
    | .error _ => (.ok (), [.findByHandle r.Handle])
  else (.ok (), [])

/-- `role.UniqueCheck`, name part: symmetric to the handle part. -/
def uniqueCheckName {σ : Type} (svc : RoleSvc σ) (r : Role) (s : σ) :
    Except serviceError Unit × List RepoCall :=
  if r.Name ≠ "" then
    match svc.role.FindByName s r.Name with
    | .ok ex =>
      if ex.ID > 0 ∧ ex.ID ≠ r.ID then (.error .ErrRoleNameNotUnique, [.findByName r.Name])
      else (.ok (), [.findByName r.Name])
    | .error _ => (.ok (), [.findByName r.Name])
  else (.ok (), [])

/-- `role.UniqueCheck`: the handle is checked first, then the name; the
lookups do not change the store. -/
def UniqueCheck {σ : Type} (svc : RoleSvc σ) (r : Role) (s : σ) : SvcResult σ Unit :=
  match uniqueCheckHandle svc r s with
  | (.error e, tr) => (.error e, s, tr)
  | (.ok _, tr) =>
    match uniqueCheckName svc r s with
    | (.error e, tr2) => (.error e, s, tr ++ tr2)
    | (.ok _, tr2) => (.ok (), s, tr ++ tr2)

/-- `role.Create`: handle validation, create capability, then one
transaction running the uniqueness check strictly before the repository
create. -/
def Create {σ : Type} (svc : RoleSvc σ) (mod : Role) (s : σ) : SvcResult σ Role :=
  if !(handle_IsValid mod.Handle) then (.error .ErrInvalidHandle, s, [])
  else if !svc.ac.CanCreateRole then (.error .ErrNoCreatePermissions, s, [])
  else
    Transaction s (fun s1 =>
      match UniqueCheck svc mod s1 with
      | (.error e, s2, tr) => (.error e, s2, tr)
      | (.ok _, s2, tr) =>
        match svc.role.Create s2 mod with
        | .ok (t, s3) => (.ok t, s3, tr ++ [.createRole mod])
        | .error e => (.error e, s2, tr ++ [.createRole mod]))

/-- `role.Update`: zero-ID and handle validation, update capability checked
against the caller payload, then one transaction: fetch the stored role,
re-run the uniqueness check, copy only `Name` and `Handle` onto the
fetched entity, persist it. -/
def Update {σ : Type} (svc : RoleSvc σ) (mod : Role) (s : σ) : SvcResult σ Role :=
  if mod.ID = 0 then (.error .ErrInvalidID, s, [])
  else if !(handle_IsValid mod.Handle) then (.error .ErrInvalidHandle, s, [])
  else if !svc.ac.CanUpdateRole mod then (.error .ErrNoUpdatePermissions, s, [])
  else
    Transaction s (fun s1 =>
      match svc.role.FindByID s1 mod.ID with
      | .error e => (.error e, s1, [.findByID mod.ID])
      | .ok t =>
        match UniqueCheck svc mod s1 with
        | (.error e, s2, tr) => (.error e, s2, .findByID mod.ID :: tr)
        | (.ok _, s2, tr) =>
          let t := { t with Name := mod.Name, Handle := mod.Handle }
          match svc.role.Update s2 t with
          | .ok (t2, s3) => (.ok t2, s3, .findByID mod.ID :: tr ++ [.updateRole t])
          | .error e => (.error e, s2, .findByID mod.ID :: tr ++ [.updateRole t]))

/-- `role.Delete`: the FindByID gate, the delete capability on the fetched
role, then the repository soft-delete transition. -/
def Delete {σ : Type} (svc : RoleSvc σ) (roleID : Nat) (s : σ) : SvcResult σ Unit :=
  match findByID svc roleID s with
  | (.error e, s2, tr) => (.error e, s2, tr)
  | (.ok role, s2, tr) =>
    if !svc.ac.CanDeleteRole role then (.error .ErrNoPermissions, s2, tr)
    else withTrace tr (liftTransition (.deleteByID roleID) (svc.role.DeleteByID s2 roleID) s2)

/-- `role.Undelete`: same gate and delete capability, undelete transition. -/
def Undelete {σ : Type} (svc : RoleSvc σ) (roleID : Nat) (s : σ) : SvcResult σ Unit :=
  match findByID svc roleID s with
  | (.error e, s2, tr) => (.error e, s2, tr)
  | (.ok role, s2, tr) =>
    if !svc.ac.CanDeleteRole role then (.error .ErrNoPermissions, s2, tr)
    else withTrace tr (liftTransition (.undeleteByID roleID) (svc.role.UndeleteByID s2 roleID) s2)

/-- `role.Archive`: same gate but the update capability, archive
transition. -/
def Archive {σ : Type} (svc : RoleSvc σ) (roleID : Nat) (s : σ) : SvcResult σ Unit :=
  match findByID svc roleID s with
  | (.error e, s2, tr) => (.error e, s2, tr)
  | (.ok role, s2, tr) =>
    if !svc.ac.CanUpdateRole role then (.error .ErrNoPermissions, s2, tr)
    else withTrace tr (liftTransition (.archiveByID roleID) (svc.role.ArchiveByID s2 roleID) s2)

/-- `role.Unarchive`: same gate and update capability, unarchive
transition. -/
def Unarchive {σ : Type} (svc : RoleSvc σ) (roleID : Nat) (s : σ) : SvcResult σ Unit :=
  match findByID svc roleID s with
  | (.error e, s2, tr) => (.error e, s2, tr)
  | (.ok role, s2, tr) =>
    if !svc.ac.CanUpdateRole role then (.error .ErrNoPermissions, s2, tr)
    else withTrace tr (liftTransition (.unarchiveByID roleID) (svc.role.UnarchiveByID s2 roleID) s2)

/-- `role.Merge`: fetch the source role through the gate, reject a zero
target, authorize the update capability on the fetched source, delegate
the merge to the repository. -/
def Merge {σ : Type} (svc : RoleSvc σ) (roleID targetRoleID : Nat) (s : σ) : SvcResult σ Unit :=
  match findByID svc roleID s with
  | (.error e, s2, tr) => (.error e, s2, tr)
  | (.ok role, s2, tr) =>
    if targetRoleID = 0 then (.error .ErrInvalidID, s2, tr)
    else if !svc.ac.CanUpdateRole role then (.error .ErrNoPermissions, s2, tr)
    else withTrace tr (liftTransition (.mergeByID roleID targetRoleID)
      (svc.role.MergeByID s2 roleID targetRoleID) s2)

/-- `role.Move`: identical shape to `Merge`, against a target
organisation. -/
def Move {σ : Type} (svc : RoleSvc σ) (roleID targetOrganisationID : Nat) (s : σ) : SvcResult σ Unit :=
  match findByID svc roleID s with
  | (.error e, s2, tr) => (.error e, s2, tr)
  | (.ok role, s2, tr) =>
    if targetOrganisationID = 0 then (.error .ErrInvalidID, s2, tr)
    else if !svc.ac.CanUpdateRole role then (.error .ErrNoPermissions, s2, tr)
    else withTrace tr (liftTransition (.moveByID roleID targetOrganisationID)
      (svc.role.MoveByID s2 roleID targetOrganisationID) s2)

/-- `role.Membership`: unauthenticated passthrough; note that there is no
zero-ID check on `userID`. -/
def Membership {σ : Type} (svc : RoleSvc σ) (userID : Nat) (s : σ) : SvcResult σ (List RoleMember) :=
  liftRead (.membershipsFindByUserID userID) (svc.role.MembershipsFindByUserID s userID) s

/-- `role.MemberList`: the FindByID gate, then the member list
passthrough. -/
def MemberList {σ : Type} (svc : RoleSvc σ) (roleID : Nat) (s : σ) : SvcResult σ (List RoleMember) :=
  match findByID svc roleID s with
  | (.error e, s2, tr) => (.error e, s2, tr)
  | (.ok _, s2, tr) =>
    withTrace tr (liftRead (.memberFindByRoleID roleID) (svc.role.MemberFindByRoleID s2 roleID) s2)

/-- `role.MemberAdd`: the FindByID gate, zero-userID guard, the
manage-members capability on the fetched role, then the repository add. -/
def MemberAdd {σ : Type} (svc : RoleSvc σ) (roleID userID : Nat) (s : σ) : SvcResult σ Unit :=
  match findByID svc roleID s with
  | (.error e, s2, tr) => (.error e, s2, tr)
  | (.ok role, s2, tr) =>
    if userID = 0 then (.error .ErrInvalidID, s2, tr)
    else if !svc.ac.CanManageRoleMembers role then (.error .ErrNotAllowedToManageMembers, s2, tr)
    else withTrace tr (liftTransition (.memberAddByID roleID userID)
      (svc.role.MemberAddByID s2 roleID userID) s2)

/-- `role.MemberRemove`: identical shape to `MemberAdd`, repository
remove. -/
def MemberRemove {σ : Type} (svc : RoleSvc σ) (roleID userID : Nat) (s : σ) : SvcResult σ Unit :=
  match findByID svc roleID s with
  | (.error e, s2, tr) => (.error e, s2, tr)
  | (.ok role, s2, tr) =>
    if userID = 0 then (.error .ErrInvalidID, s2, tr)
    else if !svc.ac.CanManageRoleMembers role then (.error .ErrNotAllowedToManageMembers, s2, tr)
    else withTrace tr (liftTransition (.memberRemoveByID roleID userID)
      (svc.role.MemberRemoveByID s2 roleID userID) s2)

/-- The trace produced by the handle half of the uniqueness check: one
lookup for a non-empty handle, none otherwise. -/
def handleLookupTrace (r : Role) : List RepoCall :=
  if r.Handle ≠ "" then [.findByHandle r.Handle] else []

/-- The trace produced by the name half of the uniqueness check. -/
def nameLookupTrace (r : Role) : List RepoCall :=
  if r.Name ≠ "" then [.findByName r.Name] else []

/-- The repository reports a conflicting owner of `r`'s handle: the handle
is non-empty and the lookup succeeds with a role whose ID is non-zero and
different from `r.ID`. -/
def handleTaken {σ : Type} (svc : RoleSvc σ) (s : σ) (r : Role) : Prop :=
  r.Handle ≠ "" ∧ ∃ ex, svc.role.FindByHandle s r.Handle = .ok ex ∧ ex.ID > 0 ∧ ex.ID ≠ r.ID

/-- The repository reports a conflicting owner of `r`'s name. -/
def nameTaken {σ : Type} (svc : RoleSvc σ) (s : σ) (r : Role) : Prop :=
  r.Name ≠ "" ∧ ∃ ex, svc.role.FindByName s r.Name = .ok ex ∧ ex.ID > 0 ∧ ex.ID ≠ r.ID

/-- The fetch-then-authorize-then-transition contract shared by the state
transition operations: the FindByID gate runs first (zero-ID guard,
lookup, read permission), the given capability is then evaluated on the
role fetched from the repository, and only afterwards is the single
transition primitive `call` (with repository action `act`) issued. -/
def FetchAuthorizeTransition {σ : Type} (svc : RoleSvc σ) (s : σ) (roleID : Nat)
    (op : SvcResult σ Unit) (cap : Role → Bool)
    (call : RepoCall) (act : Except serviceError σ) : Prop :=
  (roleID = 0 → op = (.error .ErrInvalidID, s, [])) ∧
  (∀ e, roleID ≠ 0 → svc.role.FindByID s roleID = .error e →
      op = (.error e, s, [.findByID roleID])) ∧
  (∀ role, roleID ≠ 0 → svc.role.FindByID s roleID = .ok role →
      svc.ac.CanReadRole role = false →
      op = (.error .ErrNoPermissions, s, [.findByID roleID])) ∧
  (∀ role, roleID ≠ 0 → svc.role.FindByID s roleID = .ok role →
      svc.ac.CanReadRole role = true → cap role = false →
      op = (.error .ErrNoPermissions, s, [.findByID roleID])) ∧
  (∀ role, roleID ≠ 0 → svc.role.FindByID s roleID = .ok role →
      svc.ac.CanReadRole role = true → cap role = true →
      op = (match act with
            | .ok s2 => (.ok (), s2, [.findByID roleID, call])
            | .error e => (.error e, s, [.findByID roleID, call])))

/-- A concrete role used to evaluate theorems at concrete inputs. -/
def adminRole : Role := ⟨1, "Admins", "admins", none, none⟩

/-- A second concrete role. -/
def devRole : Role := ⟨2, "Devs", "devs", none, none⟩

/-- A fresh, unsaved concrete role (ID 0). -/
def opsRole : Role := ⟨0, "Ops", "ops", none, none⟩

/-- A fully executable repository over a list-of-roles store, used to
evaluate the theorems at concrete inputs. -/
def listRepo : RoleRepository (List Role) where
  FindByID := fun s id =>
    match s.find? (fun r => r.ID == id) with
    | some r => .ok r
    | none => .error .ErrNotFound
  FindByName := fun s n =>
    match s.find? (fun r => r.Name == n) with
    | some r => .ok r
    | none => .error .ErrNotFound
  FindByHandle := fun s h =>
    match s.find? (fun r => r.Handle == h) with
    | some r => .ok r
    | none => .error .ErrNotFound
  Find := fun s f => .ok (s, f)
  Create := fun s r => .ok (r, s ++ [r])
  Update := fun s r => .ok (r, s.map (fun x => if x.ID == r.ID then r else x))
  ArchiveByID := fun s id => .ok (s.map (fun x => if x.ID == id then { x with ArchivedAt := some 1 } else x))
  UnarchiveByID := fun s id => .ok (s.map (fun x => if x.ID == id then { x with ArchivedAt := none } else x))
  DeleteByID := fun s id => .ok (s.map (fun x => if x.ID == id then { x with DeletedAt := some 1 } else x))
  UndeleteByID := fun s id => .ok (s.map (fun x => if x.ID == id then { x with DeletedAt := none } else x))
  MergeByID := fun s _ _ => .ok s
  MoveByID := fun s _ _ => .ok s
  MembershipsFindByUserID := fun _ _ => .ok []
  MemberFindByRoleID := fun _ _ => .ok []
  MemberAddByID := fun s _ _ => .ok s
  MemberRemoveByID := fun s _ _ => .ok s

/-- An access controller granting everything, for concrete evaluation. -/
def acAllow : roleAccessController where
  CanAccess := true
  CanCreateRole := true
  CanReadRole := fun _ => true
  CanUpdateRole := fun _ => true
  CanDeleteRole := fun _ => true
  CanManageRoleMembers := fun _ => true
  FilterReadableRoles := ⟨1⟩

/-- An access controller lacking only the coarse access capability. -/
def acNoAccess : roleAccessController := { acAllow with CanAccess := false }

/-- A concrete service instance over the list repository. -/
def svcA : RoleSvc (List Role) := ⟨acAllow, listRepo⟩

/-- A concrete service whose caller lacks the coarse access capability. -/
def svcNoAccess : RoleSvc (List Role) := ⟨acNoAccess, listRepo⟩

/-- A concrete starting store holding two roles. -/
def s0 : List Role := [adminRole, devRole]

/-- A role not present in the concrete store `s0`. -/
def freshRole : Role := ⟨3, "Ops", "ops", none, none⟩

/-- A concrete filter requesting deleted-role visibility. -/
def fDel : RoleFilter := ⟨"", "", 2, none⟩

/-- A concrete filter requesting only active roles. -/
def fActive : RoleFilter := ⟨"", "", 0, none⟩

/-- A concrete update payload renaming role 1. -/
def updPayload : Role := ⟨1, "Admins2", "admins2", none, none⟩

instance handleTakenDec {σ : Type} (svc : RoleSvc σ) (s : σ) (r : Role) :
    Decidable (handleTaken svc s r) :=
  match h : svc.role.FindByHandle s r.Handle with
  | .ok ex =>
    decidable_of_iff (r.Handle ≠ "" ∧ ex.ID > 0 ∧ ex.ID ≠ r.ID)
      (by
        constructor
        · rintro ⟨h1, h2, h3⟩; exact ⟨h1, ex, h, h2, h3⟩
        · rintro ⟨h1, ex2, hex2, h2, h3⟩
          rw [h] at hex2
          injection hex2 with h4
          subst h4
          exact ⟨h1, h2, h3⟩)
  | .error _ =>
    isFalse (by rintro ⟨h1, ex2, hex2, h2, h3⟩; rw [h] at hex2; simp at hex2)

instance nameTakenDec {σ : Type} (svc : RoleSvc σ) (s : σ) (r : Role) :
    Decidable (nameTaken svc s r) :=
  match h : svc.role.FindByName s r.Name with
  | .ok ex =>
    decidable_of_iff (r.Name ≠ "" ∧ ex.ID > 0 ∧ ex.ID ≠ r.ID)
      (by
        constructor
        · rintro ⟨h1, h2, h3⟩; exact ⟨h1, ex, h, h2, h3⟩
        · rintro ⟨h1, ex2, hex2, h2, h3⟩
          rw [h] at hex2
          injection hex2 with h4
          subst h4
          exact ⟨h1, h2, h3⟩)
  | .error _ =>
    isFalse (by rintro ⟨h1, ex2, hex2, h2, h3⟩; rw [h] at hex2; simp at hex2)

theorem findByID_zero {σ : Type} (svc : RoleSvc σ) (s : σ) :
    findByID svc 0 s = (.error .ErrInvalidID, s, []) := by
  simp [findByID]

theorem findByID_repo_error {σ : Type} (svc : RoleSvc σ) (s : σ) (roleID : Nat)
    (e : serviceError) (h0 : roleID ≠ 0) (he : svc.role.FindByID s roleID = .error e) :
    findByID svc roleID s = (.error e, s, [.findByID roleID]) := by
  simp [findByID, h0, he]

theorem findByID_no_read {σ : Type} (svc : RoleSvc σ) (s : σ) (roleID : Nat) (role : Role)
    (h0 : roleID ≠ 0) (hr : svc.role.FindByID s roleID = .ok role)
    (hcr : svc.ac.CanReadRole role = false) :
    findByID svc roleID s = (.error .ErrNoPermissions, s, [.findByID roleID]) := by
  simp [findByID, h0, hr, hcr]

theorem findByID_ok {σ : Type} (svc : RoleSvc σ) (s : σ) (roleID : Nat) (role : Role)
    (h0 : roleID ≠ 0) (hr : svc.role.FindByID s roleID = .ok role)
    (hcr : svc.ac.CanReadRole role = true) :
    findByID svc roleID s = (.ok role, s, [.findByID roleID]) := by
  simp [findByID, h0, hr, hcr]

theorem uniqueCheckHandle_taken {σ : Type} (svc : RoleSvc σ) (r : Role) (s : σ)
    (h : handleTaken svc s r) :
    uniqueCheckHandle svc r s = (.error .ErrRoleHandleNotUnique, [.findByHandle r.Handle]) := by
  obtain ⟨hne, ex, hex, hpos, hneq⟩ := h
  simp [uniqueCheckHandle, hne, hex, hpos, hneq]

theorem uniqueCheckHandle_not_taken {σ : Type} (svc : RoleSvc σ) (r : Role) (s : σ)
    (h : ¬ handleTaken svc s r) :
    uniqueCheckHandle svc r s = (.ok (), handleLookupTrace r) := by
  by_cases hne : r.Handle = ""
  · simp [uniqueCheckHandle, handleLookupTrace, hne]
  · cases hfb : svc.role.FindByHandle s r.Handle with
    | error e => simp [uniqueCheckHandle, handleLookupTrace, hne, hfb]
    | ok ex =>
      have hc : ¬ (ex.ID > 0 ∧ ex.ID ≠ r.ID) := fun hc => h ⟨hne, ex, hfb, hc.1, hc.2⟩
      simp [uniqueCheckHandle, handleLookupTrace, hne, hfb, hc]

theorem uniqueCheckName_taken {σ : Type} (svc : RoleSvc σ) (r : Role) (s : σ)
    (h : nameTaken svc s r) :
    uniqueCheckName svc r s = (.error .ErrRoleNameNotUnique, [.findByName r.Name]) := by
  obtain ⟨hne, ex, hex, hpos, hneq⟩ := h
  simp [uniqueCheckName, hne, hex, hpos, hneq]

theorem uniqueCheckName_not_taken {σ : Type} (svc : RoleSvc σ) (r : Role) (s : σ)
    (h : ¬ nameTaken svc s r) :
    uniqueCheckName svc r s = (.ok (), nameLookupTrace r) := by
  by_cases hne : r.Name = ""
  · simp [uniqueCheckName, nameLookupTrace, hne]
  · cases hfb : svc.role.FindByName s r.Name with
    | error e => simp [uniqueCheckName, nameLookupTrace, hne, hfb]
    | ok ex =>
      have hc : ¬ (ex.ID > 0 ∧ ex.ID ≠ r.ID) := fun hc => h ⟨hne, ex, hfb, hc.1, hc.2⟩
      simp [uniqueCheckName, nameLookupTrace, hne, hfb, hc]

theorem uniqueCheck_handle_conflict {σ : Type} (svc : RoleSvc σ) (r : Role) (s : σ)
    (h : handleTaken svc s r) :
    UniqueCheck svc r s = (.error .ErrRoleHandleNotUnique, s, handleLookupTrace r) := by
  unfold UniqueCheck
  rw [uniqueCheckHandle_taken svc r s h]
  simp [handleLookupTrace, h.1]

theorem uniqueCheck_name_conflict {σ : Type} (svc : RoleSvc σ) (r : Role) (s : σ)
    (hh : ¬ handleTaken svc s r) (hn : nameTaken svc s r) :
    UniqueCheck svc r s =
      (.error .ErrRoleNameNotUnique, s, handleLookupTrace r ++ nameLookupTrace r) := by
  unfold UniqueCheck
  rw [uniqueCheckHandle_not_taken svc r s hh, uniqueCheckName_taken svc r s hn]
  simp [nameLookupTrace, hn.1]

theorem uniqueCheck_ok {σ : Type} (svc : RoleSvc σ) (r : Role) (s : σ)
    (hh : ¬ handleTaken svc s r) (hn : ¬ nameTaken svc s r) :
    UniqueCheck svc r s = (.ok (), s, handleLookupTrace r ++ nameLookupTrace r) := by
  unfold UniqueCheck
  rw [uniqueCheckHandle_not_taken svc r s hh, uniqueCheckName_not_taken svc r s hn]

theorem uniqueCheck_state {σ : Type} (svc : RoleSvc σ) (r : Role) (s : σ) :
    (UniqueCheck svc r s).2.1 = s := by
  unfold UniqueCheck
  rcases uniqueCheckHandle svc r s with ⟨u, tr⟩
  cases u with
  | error e => rfl
  | ok _ =>
    rcases uniqueCheckName svc r s with ⟨u2, tr2⟩
    cases u2 with
    | error e => rfl
    | ok _ => rfl

theorem transaction_error_state {σ α : Type} (s : σ) (body : σ → SvcResult σ α)
    (e : serviceError) (s2 : σ) (tr : List RepoCall)
    (h : Transaction s body = (.error e, s2, tr)) : s2 = s := by
  unfold Transaction at h
  rcases hb : body s with ⟨u, su, tu⟩
  rw [hb] at h
  cases u with
  | ok a => simp at h
  | error e2 =>
    simp at h
    exact h.2.1.symm

/-- C3: `Create(role)` fails with `InvalidHandle` when the external
handle-validity predicate rejects the handle; otherwise fails with
`NoCreatePermission` when the caller lacks the create capability;
otherwise, inside a single transaction, it runs the uniqueness check
(handle lookup before name lookup, failing with `RoleHandleNotUnique`
resp. `RoleNameNotUnique`) and only then persists the role — exactly in
that order, as the traces of repository calls show. -/
theorem C3_create_order {σ : Type} (svc : RoleSvc σ) (mod : Role) (s : σ) :
    (handle_IsValid mod.Handle = false →
        Create svc mod s = (.error .ErrInvalidHandle, s, [])) ∧
    (handle_IsValid mod.Handle = true → svc.ac.CanCreateRole = false →
        Create svc mod s = (.error .ErrNoCreatePermissions, s, [])) ∧
    (handle_IsValid mod.Handle = true → svc.ac.CanCreateRole = true →
        handleTaken svc s mod →
        Create svc mod s = (.error .ErrRoleHandleNotUnique, s, handleLookupTrace mod)) ∧
    (handle_IsValid mod.Handle = true → svc.ac.CanCreateRole = true →
        ¬ handleTaken svc s mod → nameTaken svc s mod →
        Create svc mod s =
          (.error .ErrRoleNameNotUnique, s, handleLookupTrace mod ++ nameLookupTrace mod)) ∧
    (handle_IsValid mod.Handle = true → svc.ac.CanCreateRole = true →
        ¬ handleTaken svc s mod → ¬ nameTaken svc s mod →
        Create svc mod s =
          (match svc.role.Create s mod with
           | .ok (t, s2) =>
             (.ok t, s2, handleLookupTrace mod ++ nameLookupTrace mod ++ [.createRole mod])
           | .error e =>
             (.error e, s, handleLookupTrace mod ++ nameLookupTrace mod ++ [.createRole mod]))) := by
  refine ⟨?_, ?_, ?_, ?_, ?_⟩
  · intro hv
    simp [Create, hv]
  · intro hv hc
    simp [Create, hv, hc]
  · intro hv hc hht
    have hU := uniqueCheck_handle_conflict svc mod s hht
    simp [Create, hv, hc, Transaction, hU]
  · intro hv hc hh hn
    have hU := uniqueCheck_name_conflict svc mod s hh hn
    simp [Create, hv, hc, Transaction, hU]
  · intro hv hc hh hn
    have hU := uniqueCheck_ok svc mod s hh hn
    cases hcr : svc.role.Create s mod with
    | ok ts =>
      obtain ⟨t, s2⟩ := ts
      simp [Create, hv, hc, Transaction, hU, hcr]
    | error e =>
      simp [Create, hv, hc, Transaction, hU, hcr]

/-- Witness for C3 at concrete inputs: an authorized create of a fresh
role runs the handle lookup, then the name lookup, then the persistence
call, and succeeds. -/
theorem C3_witness :
    Create svcA opsRole s0 =
      (.ok opsRole, s0 ++ [opsRole],
        [.findByHandle ("ops"), .findByName ("Ops"), .createRole opsRole]) := by
  have h := (C3_create_order svcA opsRole s0).2.2.2.2 (by decide) (by decide)
    (by decide) (by decide)
  exact h.trans (by decide)

/-- C4: `UniqueCheck(r)` fails with `RoleHandleNotUnique` exactly when the
handle is non-empty and the repository lookup returns a role with a
non-zero ID different from `r.ID`; symmetrically for the name with
`RoleNameNotUnique`, the handle being checked first; a lookup error is
treated as no conflict (fail-open), and a role with the same ID as `r`
is never a conflict (self-exclusion). -/
theorem C4_uniqueCheck_spec {σ : Type} (svc : RoleSvc σ) (r : Role) (s : σ) :
    ((UniqueCheck svc r s).1 = .error .ErrRoleHandleNotUnique ↔ handleTaken svc s r) ∧
    ((UniqueCheck svc r s).1 = .error .ErrRoleNameNotUnique ↔
        (¬ handleTaken svc s r ∧ nameTaken svc s r)) ∧
    ((UniqueCheck svc r s).1 = .ok () ↔ (¬ handleTaken svc s r ∧ ¬ nameTaken svc s r)) ∧
    ((∃ e, svc.role.FindByHandle s r.Handle = .error e) →
     (∃ e, svc.role.FindByName s r.Name = .error e) →
        (UniqueCheck svc r s).1 = .ok ()) ∧
    ((∀ ex, svc.role.FindByHandle s r.Handle = .ok ex → ex.ID = r.ID) →
     (∀ ex, svc.role.FindByName s r.Name = .ok ex → ex.ID = r.ID) →
        (UniqueCheck svc r s).1 = .ok ()) := by
  refine ⟨?_, ?_, ?_, ?_, ?_⟩
  · constructor
    · intro h1
      by_cases hh : handleTaken svc s r
      · exact hh
      · by_cases hn : nameTaken svc s r
        · rw [uniqueCheck_name_conflict svc r s hh hn] at h1; simp at h1
        · rw [uniqueCheck_ok svc r s hh hn] at h1; simp at h1
    · intro hh
      rw [uniqueCheck_handle_conflict svc r s hh]
  · constructor
    · intro h1
      by_cases hh : handleTaken svc s r
      · rw [uniqueCheck_handle_conflict svc r s hh] at h1; simp at h1
      · by_cases hn : nameTaken svc s r
        · exact ⟨hh, hn⟩
        · rw [uniqueCheck_ok svc r s hh hn] at h1; simp at h1
    · rintro ⟨hh, hn⟩
      rw [uniqueCheck_name_conflict svc r s hh hn]
  · constructor
    · intro h1
      by_cases hh : handleTaken svc s r
      · rw [uniqueCheck_handle_conflict svc r s hh] at h1; simp at h1
      · by_cases hn : nameTaken svc s r
        · rw [uniqueCheck_name_conflict svc r s hh hn] at h1; simp at h1
        · exact ⟨hh, hn⟩
    · rintro ⟨hh, hn⟩
      rw [uniqueCheck_ok svc r s hh hn]
  · rintro ⟨e1, he1⟩ ⟨e2, he2⟩
    have hh : ¬ handleTaken svc s r := by
      rintro ⟨-, ex, hex, -, -⟩; rw [he1] at hex; simp at hex
    have hn : ¬ nameTaken svc s r := by
      rintro ⟨-, ex, hex, -, -⟩; rw [he2] at hex; simp at hex
    rw [uniqueCheck_ok svc r s hh hn]
  · intro hH hN
    have hh : ¬ handleTaken svc s r := by
      rintro ⟨-, ex, hex, -, hne⟩; exact hne (hH ex hex)
    have hn : ¬ nameTaken svc s r := by
      rintro ⟨-, ex, hex, -, hne⟩; exact hne (hN ex hex)
    rw [uniqueCheck_ok svc r s hh hn]

/-- Witness for C4 at concrete inputs: for a role whose handle and name
are absent from the store, both lookups fail and the check passes
(fail-open), and no handle conflict is reported. -/
theorem C4_witness :
    (UniqueCheck svcA freshRole s0).1 = .ok () ∧ ¬ handleTaken svcA s0 freshRole := by
  have h := C4_uniqueCheck_spec svcA freshRole s0
  have hok : (UniqueCheck svcA freshRole s0).1 = .ok () :=
    h.2.2.2.1 ⟨.ErrNotFound, by decide⟩ ⟨.ErrNotFound, by decide⟩
  exact ⟨hok, (h.2.2.1.mp hok).1⟩

/-- C9: for every role whose handle is empty or fails the external
handle-validity predicate, `Create` fails with `InvalidHandle` without
issuing any repository call (in particular no write). -/
theorem C9_create_invalid_handle {σ : Type} (svc : RoleSvc σ) (r : Role) (s : σ) :
    handle_IsValid ("") = false ∧
    (handle_IsValid r.Handle = false →
        Create svc r s = (.error .ErrInvalidHandle, s, [])) ∧
    (r.Handle = "" →
        Create svc r s = (.error .ErrInvalidHandle, s, [])) := by
  refine ⟨by decide, ?_, ?_⟩
  · intro hv
    simp [Create, hv]
  · intro hv
    simp [Create, handle_IsValid, hv]

/-- Witness for C9 at concrete inputs: a create payload with an empty
handle is rejected with `InvalidHandle` and the repository is never
invoked. -/
theorem C9_witness :
    Create svcA ⟨0, "NoHandle", "", none, none⟩ s0 = (.error .ErrInvalidHandle, s0, []) := by
  exact (C9_create_invalid_handle svcA ⟨0, "NoHandle", "", none, none⟩ s0).2.2 (by decide)

/-- C2: with the spec's tri-state visibility flag (a positive `Deleted`
requests archived/deleted visibility), `Find` fails with `NoPermission`
when such visibility is requested by a caller lacking the coarse
`CanAccess` capability — independently of the per-role read capability —
and otherwise injects the caller's read-visibility predicate into the
filter and delegates to the repository, returning its matched set plus
the adjusted filter. -/
theorem C2_find_gate {σ : Type} (svc : RoleSvc σ) (f : RoleFilter) (s : σ) :
    (0 < f.Deleted → svc.ac.CanAccess = false →
        Find svc f s = (.error .ErrNoPermissions, s, [])) ∧
    (f.Deleted = 0 ∨ svc.ac.CanAccess = true →
        Find svc f s =
          liftRead (.findF { f with IsReadable := some svc.ac.FilterReadableRoles })
            (svc.role.Find s { f with IsReadable := some svc.ac.FilterReadableRoles }) s) ∧
    (∀ cr, Find ⟨{ svc.ac with CanReadRole := cr }, svc.role⟩ f s = Find svc f s) := by
  refine ⟨?_, ?_, ?_⟩
  · intro hd hc
    simp [Find, hd, hc]
  · intro hor
    rcases hor with hd | hc
    · simp [Find, hd]
    · by_cases hd : 0 < f.Deleted
      · simp [Find, hd, hc]
      · simp [Find, hd]
  · intro cr
    rfl

/-- Witness for C2 at concrete inputs: with deleted visibility requested,
a caller with every per-role permission but no coarse access capability
is rejected before any repository call; without the flag, the search is
delegated with the injected read-visibility predicate. -/
theorem C2_witness :
    Find svcNoAccess fDel s0 = (.error .ErrNoPermissions, s0, []) ∧
    Find svcA fActive s0 =
      (.ok (s0, { fActive with IsReadable := some ⟨1⟩ }), s0,
        [.findF { fActive with IsReadable := some ⟨1⟩ }]) := by
  constructor
  · exact (C2_find_gate svcNoAccess fDel s0).1 (by decide) (by decide)
  · exact ((C2_find_gate svcA fActive s0).2.1 (Or.inl (by decide))).trans (by decide)

/-- C5: a failing `Create` or `Update` leaves the store exactly as it was
(every pre-transaction failure returns before any repository call, and
any failure inside the transaction — uniqueness conflict, fetch failure
or persistence failure — rolls the whole unit back), and the triggering
error is propagated to the caller unchanged. -/
theorem C5_rollback {σ : Type} (svc : RoleSvc σ) (mod : Role) (s : σ) :
    (∀ e s2 tr, Create svc mod s = (.error e, s2, tr) → s2 = s) ∧
    (∀ e s2 tr, Update svc mod s = (.error e, s2, tr) → s2 = s) ∧
    (∀ e, handle_IsValid mod.Handle = true → svc.ac.CanCreateRole = true →
        (UniqueCheck svc mod s).1 = .error e → (Create svc mod s).1 = .error e) ∧
    (∀ e, handle_IsValid mod.Handle = true → svc.ac.CanCreateRole = true →
        (UniqueCheck svc mod s).1 = .ok () → svc.role.Create s mod = .error e →
        (Create svc mod s).1 = .error e) ∧
    (∀ e, mod.ID ≠ 0 → handle_IsValid mod.Handle = true →
        svc.ac.CanUpdateRole mod = true → svc.role.FindByID s mod.ID = .error e →
        (Update svc mod s).1 = .error e) ∧
    (∀ e t, mod.ID ≠ 0 → handle_IsValid mod.Handle = true →
        svc.ac.CanUpdateRole mod = true → svc.role.FindByID s mod.ID = .ok t →
        (UniqueCheck svc mod s).1 = .error e → (Update svc mod s).1 = .error e) ∧
    (∀ e t, mod.ID ≠ 0 → handle_IsValid mod.Handle = true →
        svc.ac.CanUpdateRole mod = true → svc.role.FindByID s mod.ID = .ok t →
        (UniqueCheck svc mod s).1 = .ok () →
        svc.role.Update s { t with Name := mod.Name, Handle := mod.Handle } = .error e →
        (Update svc mod s).1 = .error e) := by
  refine ⟨?_, ?_, ?_, ?_, ?_, ?_, ?_⟩
  · intro e s2 tr h
    cases hv : handle_IsValid mod.Handle with
    | false =>
      simp [Create, hv] at h
      exact h.2.1.symm
    | true =>
      cases hc : svc.ac.CanCreateRole with
      | false =>
        simp [Create, hv, hc] at h
        exact h.2.1.symm
      | true =>
        simp only [Create, hv, hc, Bool.not_true, Bool.false_eq_true, if_false] at h
        exact transaction_error_state _ _ _ _ _ h
  · intro e s2 tr h
    by_cases h0 : mod.ID = 0
    · simp [Update, h0] at h
      exact h.2.1.symm
    · cases hv : handle_IsValid mod.Handle with
      | false =>
        simp [Update, h0, hv] at h
        exact h.2.1.symm
      | true =>
        cases hp : svc.ac.CanUpdateRole mod with
        | false =>
          simp [Update, h0, hv, hp] at h
          exact h.2.1.symm
        | true =>
          simp only [Update, h0, hv, hp, Bool.not_true, Bool.false_eq_true, if_false,
            if_neg h0] at h
          exact transaction_error_state _ _ _ _ _ h
  · intro e hv hc hU1
    rcases hU : UniqueCheck svc mod s with ⟨u, su, tu⟩
    have hsu : su = s := by
      have hs := uniqueCheck_state svc mod s
      rw [hU] at hs
      exact hs
    rw [hU] at hU1
    simp only at hU1
    subst hU1
    subst hsu
    simp [Create, hv, hc, Transaction, hU]
  · intro e hv hc hU1 hcr
    rcases hU : UniqueCheck svc mod s with ⟨u, su, tu⟩
    have hsu : su = s := by
      have hs := uniqueCheck_state svc mod s
      rw [hU] at hs
      exact hs
    rw [hU] at hU1
    simp only at hU1
    subst hU1
    subst hsu
    simp [Create, hv, hc, Transaction, hU, hcr]
  · intro e h0 hv hp hf
    simp [Update, h0, hv, hp, Transaction, hf]
  · intro e t h0 hv hp hf hU1
    rcases hU : UniqueCheck svc mod s with ⟨u, su, tu⟩
    have hsu : su = s := by
      have hs := uniqueCheck_state svc mod s
      rw [hU] at hs
      exact hs
    rw [hU] at hU1
    simp only at hU1
    subst hU1
    subst hsu
    simp [Update, h0, hv, hp, Transaction, hf, hU]
  · intro e t h0 hv hp hf hU1 hup
    rcases hU : UniqueCheck svc mod s with ⟨u, su, tu⟩
    have hsu : su = s := by
      have hs := uniqueCheck_state svc mod s
      rw [hU] at hs
      exact hs
    rw [hU] at hU1
    simp only at hU1
    subst hU1
    subst hsu
    simp [Update, h0, hv, hp, Transaction, hf, hU, hup]

/-- Witness for C5 at concrete inputs: creating a role whose handle is
already owned by role 1 fails with `RoleHandleNotUnique` (the uniqueness
error propagated unchanged) and the store is returned unchanged. -/
theorem C5_witness :
    s0 = s0 ∧
    (Create svcA ⟨0, "Admins", "admins", none, none⟩ s0).1 = .error .ErrRoleHandleNotUnique := by
  have h := C5_rollback svcA ⟨0, "Admins", "admins", none, none⟩ s0
  refine ⟨?_, ?_⟩
  · exact h.1 .ErrRoleHandleNotUnique s0 [.findByHandle ("admins")] (by decide)
  · exact h.2.2.1 .ErrRoleHandleNotUnique (by decide) (by decide) (by decide)

/-- C6: on the successful path of `Update`, the entity handed to the
repository's persist primitive is exactly the role fetched inside the
transaction with only `Name` and `Handle` replaced by the payload's
values; ID and both lifecycle flags — every other field of the modelled
role — are preserved from the fetched entity. -/
theorem C6_update_frame {σ : Type} (svc : RoleSvc σ) (mod orig t2 : Role) (s s2 : σ)
    (h0 : mod.ID ≠ 0) (hv : handle_IsValid mod.Handle = true)
    (hp : svc.ac.CanUpdateRole mod = true)
    (hf : svc.role.FindByID s mod.ID = .ok orig)
    (hh : ¬ handleTaken svc s mod) (hn : ¬ nameTaken svc s mod)
    (hu : svc.role.Update s { orig with Name := mod.Name, Handle := mod.Handle } = .ok (t2, s2)) :
    (Update svc mod s =
      (.ok t2, s2,
        .findByID mod.ID :: (handleLookupTrace mod ++ nameLookupTrace mod) ++
          [.updateRole { orig with Name := mod.Name, Handle := mod.Handle }])) ∧
    ({ orig with Name := mod.Name, Handle := mod.Handle }).ID = orig.ID ∧
    ({ orig with Name := mod.Name, Handle := mod.Handle }).ArchivedAt = orig.ArchivedAt ∧
    ({ orig with Name := mod.Name, Handle := mod.Handle }).DeletedAt = orig.DeletedAt ∧
    ({ orig with Name := mod.Name, Handle := mod.Handle }).Name = mod.Name ∧
    ({ orig with Name := mod.Name, Handle := mod.Handle }).Handle = mod.Handle := by
  have hU := uniqueCheck_ok svc mod s hh hn
  refine ⟨?_, rfl, rfl, rfl, rfl, rfl⟩
  simp [Update, h0, hv, hp, Transaction, hf, hU, hu]

/-- Witness for C6 at concrete inputs: updating role 1's name and handle
persists exactly the fetched role with the two mutable fields replaced,
leaving ID and lifecycle flags intact. -/
theorem C6_witness :
    Update svcA updPayload s0 =
      (.ok ⟨1, "Admins2", "admins2", none, none⟩,
       [⟨1, "Admins2", "admins2", none, none⟩, devRole],
       [.findByID 1, .findByHandle ("admins2"), .findByName ("Admins2"),
        .updateRole ⟨1, "Admins2", "admins2", none, none⟩]) := by
  have h := C6_update_frame svcA updPayload adminRole ⟨1, "Admins2", "admins2", none, none⟩
    s0 [⟨1, "Admins2", "admins2", none, none⟩, devRole]
    (by decide) (by decide) (by decide) (by decide) (by decide) (by decide) (by decide)
  exact h.1.trans (by decide)

/-- C7: every state-transition operation on an existing role applies the
FindByID gate first (InvalidID for id 0, the propagated lookup failure,
NoPermission if unreadable), then evaluates its capability — the delete
capability for Delete/Undelete, the update capability for Archive,
Unarchive, Merge and Move — on the role fetched from the repository
(these operations take only identifiers, so no caller-supplied entity is
ever consulted), and only then issues the single repository transition. -/
theorem C7_fetch_authorize {σ : Type} (svc : RoleSvc σ) (s : σ) (roleID target : Nat)
    (ht : target ≠ 0) :
    FetchAuthorizeTransition svc s roleID (Delete svc roleID s) svc.ac.CanDeleteRole
      (.deleteByID roleID) (svc.role.DeleteByID s roleID) ∧
    FetchAuthorizeTransition svc s roleID (Undelete svc roleID s) svc.ac.CanDeleteRole
      (.undeleteByID roleID) (svc.role.UndeleteByID s roleID) ∧
    FetchAuthorizeTransition svc s roleID (Archive svc roleID s) svc.ac.CanUpdateRole
      (.archiveByID roleID) (svc.role.ArchiveByID s roleID) ∧
    FetchAuthorizeTransition svc s roleID (Unarchive svc roleID s) svc.ac.CanUpdateRole
      (.unarchiveByID roleID) (svc.role.UnarchiveByID s roleID) ∧
    FetchAuthorizeTransition svc s roleID (Merge svc roleID target s) svc.ac.CanUpdateRole
      (.mergeByID roleID target) (svc.role.MergeByID s roleID target) ∧
    FetchAuthorizeTransition svc s roleID (Move svc roleID target s) svc.ac.CanUpdateRole
      (.moveByID roleID target) (svc.role.MoveByID s roleID target) := by
  refine ⟨?_, ?_, ?_, ?_, ?_, ?_⟩
  · refine ⟨?_, ?_, ?_, ?_, ?_⟩
    · intro h0
      subst h0
      simp [Delete, findByID_zero]
    · intro e h0 he
      simp [Delete, findByID_repo_error svc s roleID e h0 he]
    · intro role h0 hr hcr
      simp [Delete, findByID_no_read svc s roleID role h0 hr hcr]
    · intro role h0 hr hcr hcap
      simp [Delete, findByID_ok svc s roleID role h0 hr hcr, hcap]
    · intro role h0 hr hcr hcap
      cases hact : svc.role.DeleteByID s roleID with
      | ok s2 =>
        simp [Delete, findByID_ok svc s roleID role h0 hr hcr, hcap, withTrace,
          liftTransition, hact]
      | error e =>
        simp [Delete, findByID_ok svc s roleID role h0 hr hcr, hcap, withTrace,
          liftTransition, hact]
  · refine ⟨?_, ?_, ?_, ?_, ?_⟩
    · intro h0
      subst h0
      simp [Undelete, findByID_zero]
    · intro e h0 he
      simp [Undelete, findByID_repo_error svc s roleID e h0 he]
    · intro role h0 hr hcr
      simp [Undelete, findByID_no_read svc s roleID role h0 hr hcr]
    · intro role h0 hr hcr hcap
      simp [Undelete, findByID_ok svc s roleID role h0 hr hcr, hcap]
    · intro role h0 hr hcr hcap
      cases hact : svc.role.UndeleteByID s roleID with
      | ok s2 =>
        simp [Undelete, findByID_ok svc s roleID role h0 hr hcr, hcap, withTrace,
          liftTransition, hact]
      | error e =>
        simp [Undelete, findByID_ok svc s roleID role h0 hr hcr, hcap, withTrace,
          liftTransition, hact]
  · refine ⟨?_, ?_, ?_, ?_, ?_⟩
    · intro h0
      subst h0
      simp [Archive, findByID_zero]
    · intro e h0 he
      simp [Archive, findByID_repo_error svc s roleID e h0 he]
    · intro role h0 hr hcr
      simp [Archive, findByID_no_read svc s roleID role h0 hr hcr]
    · intro role h0 hr hcr hcap
      simp [Archive, findByID_ok svc s roleID role h0 hr hcr, hcap]
    · intro role h0 hr hcr hcap
      cases hact : svc.role.ArchiveByID s roleID with
      | ok s2 =>
        simp [Archive, findByID_ok svc s roleID role h0 hr hcr, hcap, withTrace,
          liftTransition, hact]
      | error e =>
        simp [Archive, findByID_ok svc s roleID role h0 hr hcr, hcap, withTrace,
          liftTransition, hact]
  · refine ⟨?_, ?_, ?_, ?_, ?_⟩
    · intro h0
      subst h0
      simp [Unarchive, findByID_zero]
    · intro e h0 he
      simp [Unarchive, findByID_repo_error svc s roleID e h0 he]
    · intro role h0 hr hcr
      simp [Unarchive, findByID_no_read svc s roleID role h0 hr hcr]
    · intro role h0 hr hcr hcap
      simp [Unarchive, findByID_ok svc s roleID role h0 hr hcr, hcap]
    · intro role h0 hr hcr hcap
      cases hact : svc.role.UnarchiveByID s roleID with
      | ok s2 =>
        simp [Unarchive, findByID_ok svc s roleID role h0 hr hcr, hcap, withTrace,
          liftTransition, hact]
      | error e =>
        simp [Unarchive, findByID_ok svc s roleID role h0 hr hcr, hcap, withTrace,
          liftTransition, hact]
  · refine ⟨?_, ?_, ?_, ?_, ?_⟩
    · intro h0
      subst h0
      simp [Merge, findByID_zero]
    · intro e h0 he
      simp [Merge, findByID_repo_error svc s roleID e h0 he]
    · intro role h0 hr hcr
      simp [Merge, findByID_no_read svc s roleID role h0 hr hcr]
    · intro role h0 hr hcr hcap
      simp [Merge, findByID_ok svc s roleID role h0 hr hcr, ht, hcap]
    · intro role h0 hr hcr hcap
      cases hact : svc.role.MergeByID s roleID target with
      | ok s2 =>
        simp [Merge, findByID_ok svc s roleID role h0 hr hcr, ht, hcap, withTrace,
          liftTransition, hact]
      | error e =>
        simp [Merge, findByID_ok svc s roleID role h0 hr hcr, ht, hcap, withTrace,
          liftTransition, hact]
  · refine ⟨?_, ?_, ?_, ?_, ?_⟩
    · intro h0
      subst h0
      simp [Move, findByID_zero]
    · intro e h0 he
      simp [Move, findByID_repo_error svc s roleID e h0 he]
    · intro role h0 hr hcr
      simp [Move, findByID_no_read svc s roleID role h0 hr hcr]
    · intro role h0 hr hcr hcap
      simp [Move, findByID_ok svc s roleID role h0 hr hcr, ht, hcap]
    · intro role h0 hr hcr hcap
      cases hact : svc.role.MoveByID s roleID target with
      | ok s2 =>
        simp [Move, findByID_ok svc s roleID role h0 hr hcr, ht, hcap, withTrace,
          liftTransition, hact]
      | error e =>
        simp [Move, findByID_ok svc s roleID role h0 hr hcr, ht, hcap, withTrace,
          liftTransition, hact]

/-- Witness for C7 at concrete inputs: deleting role 1 with full
capabilities fetches it, authorizes on the fetched entity and issues
exactly one soft-delete transition. -/
theorem C7_witness :
    Delete svcA 1 s0 =
      (.ok (), [⟨1, "Admins", "admins", none, some 1⟩, devRole],
        [.findByID 1, .deleteByID 1]) := by
  have h := (C7_fetch_authorize svcA s0 1 2 (by decide)).1
  unfold FetchAuthorizeTransition at h
  have h5 := h.2.2.2.2 adminRole (by decide) (by decide) (by decide) (by decide)
  exact h5.trans (by decide)

/-- C1 counterexample: the claim asserts that Merge's InvalidID failure
for a zero target occurs without the repository being invoked; at this
concrete input the result is that InvalidID failure, yet the repository
has already been called — the source-role fetch is in the trace. -/
theorem C1_counterexample :
    (Merge svcA 1 0 s0).1 = .error .ErrInvalidID ∧ (Merge svcA 1 0 s0).2.2 ≠ [] := by
  constructor
  · decide
  · decide

/-- C1 (amended): pre-fetch validation and authorization failures are
returned without any repository call (Create's InvalidHandle and
NoCreatePermission, Update's InvalidID, InvalidHandle and
NoUpdatePermission, findByID's InvalidID, Find's NoPermission); for
Merge, Move, MemberAdd and MemberRemove the InvalidID failure for a zero
target or user ID is returned after the source-role fetch — one
repository read — and before any repository write or transition call. -/
theorem C1_amended {σ : Type} (svc : RoleSvc σ) (s : σ) (mod : Role)
    (roleID target uid : Nat) (f : RoleFilter) :
    (handle_IsValid mod.Handle = false →
        Create svc mod s = (.error .ErrInvalidHandle, s, [])) ∧
    (handle_IsValid mod.Handle = true → svc.ac.CanCreateRole = false →
        Create svc mod s = (.error .ErrNoCreatePermissions, s, [])) ∧
    (mod.ID = 0 → Update svc mod s = (.error .ErrInvalidID, s, [])) ∧
    (mod.ID ≠ 0 → handle_IsValid mod.Handle = false →
        Update svc mod s = (.error .ErrInvalidHandle, s, [])) ∧
    (mod.ID ≠ 0 → handle_IsValid mod.Handle = true → svc.ac.CanUpdateRole mod = false →
        Update svc mod s = (.error .ErrNoUpdatePermissions, s, [])) ∧
    (findByID svc 0 s = (.error .ErrInvalidID, s, [])) ∧
    (0 < f.Deleted → svc.ac.CanAccess = false →
        Find svc f s = (.error .ErrNoPermissions, s, [])) ∧
    (∀ role, roleID ≠ 0 → svc.role.FindByID s roleID = .ok role →
        svc.ac.CanReadRole role = true → target = 0 →
        Merge svc roleID target s = (.error .ErrInvalidID, s, [.findByID roleID]) ∧
        Move svc roleID target s = (.error .ErrInvalidID, s, [.findByID roleID])) ∧
    (∀ role, roleID ≠ 0 → svc.role.FindByID s roleID = .ok role →
        svc.ac.CanReadRole role = true → uid = 0 →
        MemberAdd svc roleID uid s = (.error .ErrInvalidID, s, [.findByID roleID]) ∧
        MemberRemove svc roleID uid s = (.error .ErrInvalidID, s, [.findByID roleID])) := by
  refine ⟨?_, ?_, ?_, ?_, ?_, ?_, ?_, ?_, ?_⟩
  · intro hv
    simp [Create, hv]
  · intro hv hc
    simp [Create, hv, hc]
  · intro h0
    simp [Update, h0]
  · intro h0 hv
    simp [Update, h0, hv]
  · intro h0 hv hp
    simp [Update, h0, hv, hp]
  · exact findByID_zero svc s
  · intro hd hc
    simp [Find, hd, hc]
  · intro role h0 hr hcr htz
    subst htz
    constructor
    · simp [Merge, findByID_ok svc s roleID role h0 hr hcr]
    · simp [Move, findByID_ok svc s roleID role h0 hr hcr]
  · intro role h0 hr hcr huz
    subst huz
    constructor
    · simp [MemberAdd, findByID_ok svc s roleID role h0 hr hcr]
    · simp [MemberRemove, findByID_ok svc s roleID role h0 hr hcr]

/-- Witness for C1 at concrete inputs: Merge with a zero target fails with
InvalidID after exactly the one source-role read and no write, and an
invalid-handle Create fails with no repository call at all. -/
theorem C1_witness :
    Merge svcA 1 0 s0 = (.error .ErrInvalidID, s0, [.findByID 1]) ∧
    Create svcA ⟨0, "NewRole", "", none, none⟩ s0 = (.error .ErrInvalidHandle, s0, []) := by
  have h := C1_amended svcA s0 ⟨0, "NewRole", "", none, none⟩ 1 0 0 fDel
  constructor
  · exact (h.2.2.2.2.2.2.2.1 adminRole (by decide) (by decide) (by decide) rfl).1
  · exact h.1 (by decide)

/-- C8 counterexample: Membership performs no zero-identifier check — at
this concrete input Membership(0) succeeds by delegating straight to the
repository instead of failing with InvalidID as the claim requires. -/
theorem C8_counterexample :
    Membership svcA 0 s0 = (.ok [], s0, [.membershipsFindByUserID 0]) ∧
    (Membership svcA 0 s0).1 ≠ .error .ErrInvalidID := by
  constructor
  · decide
  · decide

/-- C8 (amended): every operation taking an identifier argument except
Membership rejects the identifier 0 with InvalidID — the role ID through
the FindByID gate, Merge's and Move's zero target and MemberAdd's and
MemberRemove's zero userID right after the source fetch; Membership
performs no zero check and delegates to the repository for every userID,
including 0. -/
theorem C8_amended {σ : Type} (svc : RoleSvc σ) (s : σ) (mod : Role)
    (roleID target uid : Nat) :
    (findByID svc 0 s = (.error .ErrInvalidID, s, [])) ∧
    (FindByID svc 0 s = (.error .ErrInvalidID, s, [])) ∧
    (mod.ID = 0 → Update svc mod s = (.error .ErrInvalidID, s, [])) ∧
    (Delete svc 0 s = (.error .ErrInvalidID, s, [])) ∧
    (Undelete svc 0 s = (.error .ErrInvalidID, s, [])) ∧
    (Archive svc 0 s = (.error .ErrInvalidID, s, [])) ∧
    (Unarchive svc 0 s = (.error .ErrInvalidID, s, [])) ∧
    (MemberList svc 0 s = (.error .ErrInvalidID, s, [])) ∧
    (Merge svc 0 target s = (.error .ErrInvalidID, s, [])) ∧
    (Move svc 0 target s = (.error .ErrInvalidID, s, [])) ∧
    (MemberAdd svc 0 uid s = (.error .ErrInvalidID, s, [])) ∧
    (MemberRemove svc 0 uid s = (.error .ErrInvalidID, s, [])) ∧
    (∀ role, roleID ≠ 0 → svc.role.FindByID s roleID = .ok role →
        svc.ac.CanReadRole role = true →
        Merge svc roleID 0 s = (.error .ErrInvalidID, s, [.findByID roleID]) ∧
        Move svc roleID 0 s = (.error .ErrInvalidID, s, [.findByID roleID]) ∧
        MemberAdd svc roleID 0 s = (.error .ErrInvalidID, s, [.findByID roleID]) ∧
        MemberRemove svc roleID 0 s = (.error .ErrInvalidID, s, [.findByID roleID])) ∧
    (∀ u, Membership svc u s =
        liftRead (.membershipsFindByUserID u) (svc.role.MembershipsFindByUserID s u) s) := by
  refine ⟨findByID_zero svc s, findByID_zero svc s, ?_, ?_, ?_, ?_, ?_, ?_, ?_, ?_, ?_, ?_,
    ?_, ?_⟩
  · intro h0
    simp [Update, h0]
  · simp [Delete, findByID_zero]
  · simp [Undelete, findByID_zero]
  · simp [Archive, findByID_zero]
  · simp [Unarchive, findByID_zero]
  · simp [MemberList, findByID_zero]
  · simp [Merge, findByID_zero]
  · simp [Move, findByID_zero]
  · simp [MemberAdd, findByID_zero]
  · simp [MemberRemove, findByID_zero]
  · intro role h0 hr hcr
    refine ⟨?_, ?_, ?_, ?_⟩
    · simp [Merge, findByID_ok svc s roleID role h0 hr hcr]
    · simp [Move, findByID_ok svc s roleID role h0 hr hcr]
    · simp [MemberAdd, findByID_ok svc s roleID role h0 hr hcr]
    · simp [MemberRemove, findByID_ok svc s roleID role h0 hr hcr]
  · intro u
    rfl

/-- Witness for C8 at concrete inputs: zero role IDs are rejected with no
repository call, a zero userID is rejected after the source fetch, and
Membership(0) passes straight through to the repository. -/
theorem C8_witness :
    Delete svcA 0 s0 = (.error .ErrInvalidID, s0, []) ∧
    MemberAdd svcA 1 0 s0 = (.error .ErrInvalidID, s0, [.findByID 1]) ∧
    Membership svcA 0 s0 =
      liftRead (.membershipsFindByUserID 0) (svcA.role.MembershipsFindByUserID s0 0) s0 := by
  have h := C8_amended svcA s0 updPayload 1 2 0
  refine ⟨h.2.2.2.1, ?_, h.2.2.2.2.2.2.2.2.2.2.2.2.2 0⟩
  exact (h.2.2.2.2.2.2.2.2.2.2.2.2.1 adminRole (by decide) (by decide) (by decide)).2.2.1

/-- C10: Create requires no zero ID on its payload: when the payload's ID
coincides with the ID of the existing owner of the same non-empty handle,
the uniqueness check's self-exclusion (ex.ID ≠ r.ID) reports no conflict,
so the create proceeds to the repository persist call although the handle
is taken. -/
theorem C10_create_self_exclusion {σ : Type} (svc : RoleSvc σ) (mod ex : Role) (s : σ)
    (hv : handle_IsValid mod.Handle = true) (hc : svc.ac.CanCreateRole = true)
    (hfh : svc.role.FindByHandle s mod.Handle = .ok ex) (hid : ex.ID = mod.ID)
    (hn : ¬ nameTaken svc s mod) :
    ¬ handleTaken svc s mod ∧
    (Create svc mod s).2.2 =
      handleLookupTrace mod ++ nameLookupTrace mod ++ [.createRole mod] ∧
    Create svc mod s =
      (match svc.role.Create s mod with
       | .ok (t, s2) =>
         (.ok t, s2, handleLookupTrace mod ++ nameLookupTrace mod ++ [.createRole mod])
       | .error e =>
         (.error e, s, handleLookupTrace mod ++ nameLookupTrace mod ++ [.createRole mod])) := by
  have hh : ¬ handleTaken svc s mod := by
    rintro ⟨-, ex2, hex2, -, hne⟩
    rw [hfh] at hex2
    injection hex2 with h4
    subst h4
    exact hne hid
  have hU := uniqueCheck_ok svc mod s hh hn
  have hmain : Create svc mod s =
      (match svc.role.Create s mod with
       | .ok (t, s2) =>
         (.ok t, s2, handleLookupTrace mod ++ nameLookupTrace mod ++ [.createRole mod])
       | .error e =>
         (.error e, s, handleLookupTrace mod ++ nameLookupTrace mod ++ [.createRole mod])) := by
    cases hcr : svc.role.Create s mod with
    | ok ts =>
      obtain ⟨t, s2⟩ := ts
      simp [Create, hv, hc, Transaction, hU, hcr]
    | error e =>
      simp [Create, hv, hc, Transaction, hU, hcr]
  refine ⟨hh, ?_, hmain⟩
  rw [hmain]
  cases hcr : svc.role.Create s mod with
  | ok ts =>
    obtain ⟨t, s2⟩ := ts
    simp [hcr]
  | error e =>
    simp [hcr]

/-- Witness for C10 at concrete inputs: creating a payload identical to
role 1 (same ID, same taken handle) passes the uniqueness check by
self-exclusion and reaches the repository persist call. -/
theorem C10_witness :
    Create svcA adminRole s0 =
      (.ok adminRole, [adminRole, devRole, adminRole],
        [.findByHandle ("admins"), .findByName ("Admins"), .createRole adminRole]) := by
  have h := C10_create_self_exclusion svcA adminRole adminRole s0 (by decide) (by decide)
    (by decide) rfl (by decide)
  exact h.2.2.trans (by decide)

end Crust
